import Mathlib

/-
  Verification of the audit orchestration and scoring engine of the
  aeo-cli / context-cli repository.

  The Python modules `src/context_cli/core/scoring.py` and
  `src/context_cli/core/auditor.py` are shallowly embedded below:
  reports become Lean structures over exact rationals, the concurrent
  probe fan-out of `audit_url` becomes an explicit tuple of tagged
  probe outcomes (each slot either a value or the message of a raised
  exception, mirroring `asyncio.gather(..., return_exceptions=True)`),
  and in-place score mutation becomes functional record update.
  External collaborators (the per-pillar check functions, the crawler
  and `urllib.parse`) are passed in as function parameters, matching
  the specification's treatment of them as black boxes.
-/

-- ── Decimal rounding ─────────────────────────────────────────────────────────

/-- Round a rational to the nearest integer, ties to even — the rounding
used by Python's builtin `round`. -/
def roundHalfEven (q : ℚ) : ℤ :=
  if q - ⌊q⌋ < 1/2 then ⌊q⌋
  else if 1/2 < q - ⌊q⌋ then ⌊q⌋ + 1
  else if 2 ∣ ⌊q⌋ then ⌊q⌋ else ⌊q⌋ + 1

/-- `round(x, 1)` of Python: round to one decimal place. -/
def round1 (q : ℚ) : ℚ := (roundHalfEven (q * 10) : ℚ) / 10

-- ── Data model ───────────────────────────────────────────────────────────────
-- Report structures after `src/context_cli/core/models.py` (a module of this
-- repository whose field names and defaults are pinned down by
-- `tests/test_models.py` and the constructor calls in `auditor.py`).
-- Scores are exact rationals standing for Python floats.

/-- One bot's access verdict from the robots.txt check. -/
structure BotAccessResult where
  bot : String
  allowed : Bool
  detail : String := ""
deriving DecidableEq, Repr

/-- Robots pillar report. -/
structure RobotsReport where
  found : Bool := false
  bots : List BotAccessResult := []
  score : ℚ := 0
  detail : String := ""
deriving DecidableEq, Repr

/-- llms.txt pillar report. -/
structure LlmsTxtReport where
  found : Bool := false
  llms_full_found : Bool := false
  url : Option String := none
  score : ℚ := 0
  detail : String := ""
deriving DecidableEq, Repr

/-- One JSON-LD block: its `@type` and property names. -/
structure SchemaOrgResult where
  schema_type : String
  properties : List String := []
deriving DecidableEq, Repr

/-- Structured-data pillar report. -/
structure SchemaReport where
  blocks_found : Nat := 0
  schemas : List SchemaOrgResult := []
  score : ℚ := 0
  detail : String := ""
deriving DecidableEq, Repr

/-- Content-density pillar report, including the token-waste fields that
`audit_url` fills in after the crawl. -/
structure ContentReport where
  word_count : Nat := 0
  char_count : Nat := 0
  has_headings : Bool := false
  has_lists : Bool := false
  has_code_blocks : Bool := false
  raw_html_chars : Nat := 0
  clean_markdown_chars : Nat := 0
  estimated_raw_tokens : Nat := 0
  estimated_clean_tokens : Nat := 0
  context_waste_pct : ℚ := 0
  score : ℚ := 0
  detail : String := ""
deriving DecidableEq, Repr

/-- AGENTS.md agent-readiness sub-check report. -/
structure AgentsMdReport where
  found : Bool := false
  score : ℚ := 0
  detail : String := ""
deriving DecidableEq, Repr

/-- Markdown content-negotiation agent-readiness sub-check report. -/
structure MarkdownAcceptReport where
  supported : Bool := false
  score : ℚ := 0
  detail : String := ""
deriving DecidableEq, Repr

/-- MCP endpoint agent-readiness sub-check report. -/
structure McpEndpointReport where
  found : Bool := false
  score : ℚ := 0
  detail : String := ""
deriving DecidableEq, Repr

/-- Semantic-HTML agent-readiness sub-check report (synchronous check). -/
structure SemanticHtmlReport where
  score : ℚ := 0
  detail : String := ""
deriving DecidableEq, Repr

/-- x402 payment-challenge agent-readiness sub-check report. -/
structure X402Report where
  found : Bool := false
  score : ℚ := 0
  detail : String := ""
deriving DecidableEq, Repr

/-- NLWeb discovery agent-readiness sub-check report. -/
structure NlwebReport where
  found : Bool := false
  score : ℚ := 0
  detail : String := ""
deriving DecidableEq, Repr

/-- Composite agent-readiness pillar report. -/
structure AgentReadinessReport where
  agents_md : AgentsMdReport := {}
  markdown_accept : MarkdownAcceptReport := {}
  mcp_endpoint : McpEndpointReport := {}
  semantic_html : SemanticHtmlReport := {}
  x402 : X402Report := {}
  nlweb : NlwebReport := {}
  score : ℚ := 0
  detail : String := ""
deriving DecidableEq, Repr

/-- Informational RSL signal report (external collaborator; shape abstracted
to its detail payload, which the claims never inspect). -/
structure RslReport where
  detail : String := ""
deriving DecidableEq, Repr

/-- Informational Content-Usage header report (external collaborator). -/
structure ContentUsageReport where
  detail : String := ""
deriving DecidableEq, Repr

/-- Informational E-E-A-T signal report (external collaborator). -/
structure EeatReport where
  detail : String := ""
deriving DecidableEq, Repr

/-- Crawler output, after `CrawlResult` in `core/crawler.py`. -/
structure CrawlResult where
  url : String := ""
  html : String := ""
  markdown : String := ""
  success : Bool := false
  error : Option String := none
  internal_links : List String := []
deriving DecidableEq, Repr

/-- Single-page audit report assembled by `audit_url`.  The `lint_result`
sub-report (pass/fail presentation strings) is not modelled. -/
structure AuditReport where
  url : String
  overall_score : ℚ
  robots : RobotsReport
  llms_txt : LlmsTxtReport
  schema_org : SchemaReport
  content : ContentReport
  rsl : RslReport
  content_usage : Option ContentUsageReport
  eeat : EeatReport
  agent_readiness : AgentReadinessReport
  errors : List String
deriving DecidableEq, Repr

/-- One sampled page's audit within a site audit. -/
structure PageAudit where
  url : String
  schema_org : SchemaReport := {}
  content : ContentReport := {}
  errors : List String := []
deriving DecidableEq, Repr

/-- Page discovery outcome. -/
structure DiscoveryResult where
  method : String := "none"
  urls_sampled : List String := []
  urls_found_total : Nat := 0
  detail : String := ""
deriving DecidableEq, Repr

/-- Site-level audit report assembled by `audit_site`. -/
structure SiteAuditReport where
  url : String
  domain : String
  overall_score : ℚ
  robots : RobotsReport
  llms_txt : LlmsTxtReport
  schema_org : SchemaReport
  content : ContentReport
  rsl : RslReport := {}
  content_usage : Option ContentUsageReport := none
  eeat : EeatReport := {}
  agent_readiness : AgentReadinessReport := {}
  discovery : DiscoveryResult := {}
  pages : List PageAudit := []
  pages_audited : Nat := 0
  pages_failed : Nat := 0
  errors : List String := []
deriving DecidableEq, Repr

-- ── Scoring engine (v2), from src/context_cli/core/scoring.py ────────────────

/-- (min_words, base_score) tiers, evaluated top-down, first match wins. -/
def CONTENT_WORD_TIERS : List (Nat × ℚ) := [(1500, 25), (800, 20), (400, 15), (150, 8)]

def CONTENT_HEADING_BONUS : ℚ := 7

def CONTENT_LIST_BONUS : ℚ := 5

def CONTENT_CODE_BONUS : ℚ := 3

def CONTENT_MAX : ℚ := 40

def SCHEMA_BASE_SCORE : ℚ := 8

def HIGH_VALUE_TYPES : List String := ["FAQPage", "HowTo", "Article", "Product", "Recipe"]

def SCHEMA_HIGH_VALUE_BONUS : ℚ := 5

def SCHEMA_STANDARD_BONUS : ℚ := 3

def SCHEMA_MAX : ℚ := 25

def ROBOTS_MAX : ℚ := 25

def LLMS_TXT_MAX : ℚ := 10

/-- `sum(1 for b in robots.bots if b.allowed)`. -/
def allowedCount (bots : List BotAccessResult) : Nat :=
  (bots.filter (fun b => b.allowed)).length

/-- Robots pillar score: proportional to the allowed-bot fraction, rounded
to one decimal; 0 when robots.txt is absent or no bots were evaluated. -/
def robotsScore (r : RobotsReport) : ℚ :=
  if r.found && !r.bots.isEmpty then
    round1 (ROBOTS_MAX * (allowedCount r.bots : ℚ) / (r.bots.length : ℚ))
  else 0

/-- llms.txt pillar score: binary, either variant qualifies. -/
def llmsTxtScore (l : LlmsTxtReport) : ℚ :=
  if l.found || l.llms_full_found then LLMS_TXT_MAX else 0

/-- The set of distinct `@type` names in a schema report
(`{s.schema_type for s in schema_org.schemas}`). -/
def uniqueTypes (s : SchemaReport) : Finset String :=
  (s.schemas.map (fun b => b.schema_type)).toFinset

/-- Structured-data pillar score: base plus per-unique-type bonuses with a
higher tier for high-value types, capped; 0 when no blocks were found. -/
def schemaScore (s : SchemaReport) : ℚ :=
  if 0 < s.blocks_found then
    let high := ((uniqueTypes s).filter (fun t => t ∈ HIGH_VALUE_TYPES)).card
    let std := (uniqueTypes s).card - high
    min SCHEMA_MAX
      (SCHEMA_BASE_SCORE + SCHEMA_HIGH_VALUE_BONUS * high + SCHEMA_STANDARD_BONUS * std)
  else 0

/-- Word-count tier base score: first tier (top-down) whose threshold the
word count meets, 0 if none. -/
def contentTierScore (word_count : Nat) : ℚ :=
  ((CONTENT_WORD_TIERS.find? (fun t => word_count ≥ t.1)).map (fun t => t.2)).getD 0

/-- Content pillar score: tier base plus structural bonuses, capped. -/
def contentScore (c : ContentReport) : ℚ :=
  min CONTENT_MAX
    (contentTierScore c.word_count
      + (if c.has_headings then CONTENT_HEADING_BONUS else 0)
      + (if c.has_lists then CONTENT_LIST_BONUS else 0)
      + (if c.has_code_blocks then CONTENT_CODE_BONUS else 0))

/-- `compute_scores`: score each pillar in place and return the reports with
the overall readiness score (their sum).  Python mutation of the report
objects becomes record update. -/
def compute_scores (robots : RobotsReport) (llms_txt : LlmsTxtReport)
    (schema_org : SchemaReport) (content : ContentReport) :
    RobotsReport × LlmsTxtReport × SchemaReport × ContentReport × ℚ :=
  let r := { robots with score := robotsScore robots }
  let l := { llms_txt with score := llmsTxtScore llms_txt }
  let s := { schema_org with score := schemaScore schema_org }
  let c := { content with score := contentScore content }
  (r, l, s, c, r.score + l.score + s.score + c.score)

-- ── Scoring engine (v3 scheme) ───────────────────────────────────────────────

/-- Modelled from the spec: the v3 point budget of the scoring scheme
("`v3` rescales `v2`'s raw pillar scores proportionally into a different
point budget and adds an Agent-Readiness pillar"; per-scheme maxima sum to
100).  The concrete maxima are those the repository's own
`tests/test_scoring_v3.py` asserts for the `V3_*` constants of
`context_cli.core.scoring`, whose v3 half is absent from this snapshot. -/
def V3_CONTENT_MAX : ℚ := 35

def V3_ROBOTS_MAX : ℚ := 20

def V3_SCHEMA_MAX : ℚ := 20

def V3_AGENT_READINESS_MAX : ℚ := 20

def V3_LLMS_TXT_MAX : ℚ := 5

/-- The six agent-readiness sub-signals of a report, as (display name,
score) pairs in their fixed order. -/
def arSubsignals (ar : AgentReadinessReport) : List (String × ℚ) :=
  [("AGENTS.md", ar.agents_md.score),
   ("MD-Accept", ar.markdown_accept.score),
   ("MCP", ar.mcp_endpoint.score),
   ("Semantic", ar.semantic_html.score),
   ("x402", ar.x402.score),
   ("NLWeb", ar.nlweb.score)]

/-- Modelled from the spec: `compute_agent_readiness` of
`context_cli.core.scoring` (absent from this snapshot; exercised by
`tests/test_scoring_v3.py`): "sum of six independently-scored sub-signals
..., capped at the pillar maximum; detail string lists only the non-zero
sub-signals as Name=value pairs joined by a separator, and reads a fixed
sentinel string when all sub-signals are zero". -/
def compute_agent_readiness (ar : AgentReadinessReport) : AgentReadinessReport :=
  let subs := arSubsignals ar
  let total := (subs.map (fun p => p.2)).sum
  let nonzero := subs.filter (fun p => p.2 != 0)
  let detail :=
    if nonzero.isEmpty then "No agent readiness signals detected"
    else String.intercalate ", " (nonzero.map (fun p => p.1 ++ "=" ++ toString p.2))
  { ar with score := min V3_AGENT_READINESS_MAX total, detail := detail }

/-- Modelled from the spec: the `scoring_version` / `agent_readiness`
extension of `compute_scores` (absent from this snapshot's `scoring.py`;
exercised by `tests/test_scoring_v3.py`).  "Under `v3`, each `v2`-style raw
pillar score is rescaled as `round(raw / v2_max * v3_max, 1)` before
summing; Agent-Readiness is added unscaled"; any other version keeps the
v2 overall.  The report objects keep their raw v2 scores. -/
def compute_scores_versioned (robots : RobotsReport) (llms_txt : LlmsTxtReport)
    (schema_org : SchemaReport) (content : ContentReport)
    (scoring_version : String) (agent_readiness : Option AgentReadinessReport) :
    RobotsReport × LlmsTxtReport × SchemaReport × ContentReport × ℚ :=
  let v2 := compute_scores robots llms_txt schema_org content
  if scoring_version = "v3" then
    let overall :=
      round1 (v2.1.score / ROBOTS_MAX * V3_ROBOTS_MAX)
        + round1 (v2.2.1.score / LLMS_TXT_MAX * V3_LLMS_TXT_MAX)
        + round1 (v2.2.2.1.score / SCHEMA_MAX * V3_SCHEMA_MAX)
        + round1 (v2.2.2.2.1.score / CONTENT_MAX * V3_CONTENT_MAX)
        + (match agent_readiness with
           | some ar => ar.score
           | none => 0)
    (v2.1, v2.2.1, v2.2.2.1, v2.2.2.2.1, overall)
  else v2

-- ── Orchestrator: audit_url, from src/context_cli/core/auditor.py ────────────

/-- One slot of `asyncio.gather(..., return_exceptions=True)`: either the
probe's value or the message of the exception it raised. -/
inductive ProbeResult (α : Type) where
  | ok : α → ProbeResult α
  | exn : String → ProbeResult α
deriving DecidableEq, Repr

/-- The external collaborators `audit_url` calls synchronously: the
page-derived checks, the informational checks, and `urlparse(url).netloc`. -/
structure AuditEnv where
  check_schema_org : String → SchemaReport
  check_content : String → ContentReport
  check_semantic_html : String → SemanticHtmlReport
  check_rsl : Option String → RslReport
  check_eeat : String → String → EeatReport
  netloc : String → String

/-- The nine concurrently dispatched probe outcomes of one `audit_url`
fan-out, positionally associated exactly as in the `asyncio.gather` call. -/
structure AuditInputs where
  robots : ProbeResult (RobotsReport × Option String)
  llms_txt : ProbeResult LlmsTxtReport
  content_usage : ProbeResult ContentUsageReport
  crawl : ProbeResult CrawlResult
  agents_md : ProbeResult AgentsMdReport
  markdown_accept : ProbeResult MarkdownAcceptReport
  mcp_endpoint : ProbeResult McpEndpointReport
  x402 : ProbeResult X402Report
  nlweb : ProbeResult NlwebReport

/-- Exception handling for the robots slot: on failure, the default
"Check failed" report, a `None` raw body, and one error entry. -/
def resolveRobots : ProbeResult (RobotsReport × Option String) →
    (RobotsReport × Option String) × List String
  | .ok rr => (rr, [])
  | .exn m => (({ found := false, detail := "Check failed" }, none),
               ["Robots check failed: " ++ m])

def resolveLlms : ProbeResult LlmsTxtReport → LlmsTxtReport × List String
  | .ok v => (v, [])
  | .exn m => ({ found := false, detail := "Check failed" }, ["llms.txt check failed: " ++ m])

def resolveContentUsage : ProbeResult ContentUsageReport →
    Option ContentUsageReport × List String
  | .ok v => (some v, [])
  | .exn m => (none, ["Content-Usage check failed: " ++ m])

def resolveCrawl : ProbeResult CrawlResult → Option CrawlResult × List String
  | .ok v => (some v, [])
  | .exn m => (none, ["Crawl failed: " ++ m])

/-- `html = crawl.html if crawl and crawl.success else ""`. -/
def crawlHtml : Option CrawlResult → String
  | some c => if c.success then c.html else ""
  | none => ""

/-- `markdown = crawl.markdown if crawl and crawl.success else ""`. -/
def crawlMarkdown : Option CrawlResult → String
  | some c => if c.success then c.markdown else ""
  | none => ""

/-- `if crawl and not crawl.success and crawl.error: errors.append(...)`;
a `None` or empty error string is falsy in Python. -/
def crawlErrorMsgs : Option CrawlResult → List String
  | some c =>
      if c.success then []
      else match c.error with
        | some e => if e = "" then [] else ["Crawl error: " ++ e]
        | none => []
  | none => []

def resolveAgentsMd : ProbeResult AgentsMdReport → AgentsMdReport × List String
  | .ok v => (v, [])
  | .exn m => ({}, ["AGENTS.md check failed: " ++ m])

def resolveMarkdownAccept : ProbeResult MarkdownAcceptReport →
    MarkdownAcceptReport × List String
  | .ok v => (v, [])
  | .exn m => ({}, ["Markdown accept check failed: " ++ m])

def resolveMcpEndpoint : ProbeResult McpEndpointReport → McpEndpointReport × List String
  | .ok v => (v, [])
  | .exn m => ({}, ["MCP endpoint check failed: " ++ m])

def resolveX402 : ProbeResult X402Report → X402Report × List String
  | .ok v => (v, [])
  | .exn m => ({}, ["x402 check failed: " ++ m])

def resolveNlweb : ProbeResult NlwebReport → NlwebReport × List String
  | .ok v => (v, [])
  | .exn m => ({}, ["NLWeb check failed: " ++ m])

/-- `_build_agent_readiness`: replace each failed sub-check with its default
report (appending one error entry each, in source order) and total the six
sub-scores.  The semantic-HTML result is synchronous and never an
exception.  Returns the report and the appended error entries. -/
def build_agent_readiness (agents_md : ProbeResult AgentsMdReport)
    (markdown_accept : ProbeResult MarkdownAcceptReport)
    (mcp_endpoint : ProbeResult McpEndpointReport)
    (semantic_html : SemanticHtmlReport)
    (x402 : ProbeResult X402Report) (nlweb : ProbeResult NlwebReport) :
    AgentReadinessReport × List String :=
  let ra := resolveAgentsMd agents_md
  let rm := resolveMarkdownAccept markdown_accept
  let rmc := resolveMcpEndpoint mcp_endpoint
  let rx := resolveX402 x402
  let rn := resolveNlweb nlweb
  let total := ra.1.score + rm.1.score + rmc.1.score
    + semantic_html.score + rx.1.score + rn.1.score
  ({ agents_md := ra.1, markdown_accept := rm.1, mcp_endpoint := rmc.1,
     semantic_html := semantic_html, x402 := rx.1, nlweb := rn.1,
     score := total,
     detail := "Agent readiness: " ++ toString total ++ "/20" },
   ra.2 ++ rm.2 ++ rmc.2 ++ rx.2 ++ rn.2)

/-- The token-waste block of `audit_url`: character counts, the
four-chars-per-token estimates (Python `//`), and the waste percentage
rounded to one decimal (`(raw - clean) / raw * 100` when `raw > 0`, else
0; the source applies no clamp).  The source's `len(html) if html else 0`
equals `len(html)`. -/
def withTokenMetrics (content : ContentReport) (html markdown : String) : ContentReport :=
  let raw_html_chars := html.length
  let clean_markdown_chars := markdown.length
  let raw_tokens := raw_html_chars / 4
  let clean_tokens := clean_markdown_chars / 4
  let waste_pct : ℚ :=
    if 0 < raw_tokens then ((raw_tokens : ℚ) - (clean_tokens : ℚ)) / (raw_tokens : ℚ) * 100
    else 0
  { content with
    raw_html_chars := raw_html_chars,
    clean_markdown_chars := clean_markdown_chars,
    estimated_raw_tokens := raw_tokens,
    estimated_clean_tokens := clean_tokens,
    context_waste_pct := round1 waste_pct }

/-- `audit_url`, as a deterministic function of the nine probe outcomes and
the synchronous collaborators: exception handling per slot, page-derived
checks on the crawl's html/markdown (empty strings when extraction
failed), agent-readiness assembly, token metrics, then `compute_scores`.
Error entries accumulate in source order. -/
def audit_url (env : AuditEnv) (url : String) (inp : AuditInputs) : AuditReport :=
  let rr := resolveRobots inp.robots
  let lr := resolveLlms inp.llms_txt
  let cur := resolveContentUsage inp.content_usage
  let cr := resolveCrawl inp.crawl
  let html := crawlHtml cr.1
  let markdown := crawlMarkdown cr.1
  let schema_org := env.check_schema_org html
  let content0 := env.check_content markdown
  let semantic := env.check_semantic_html html
  let ar := build_agent_readiness inp.agents_md inp.markdown_accept
    inp.mcp_endpoint semantic inp.x402 inp.nlweb
  let content1 := withTokenMetrics content0 html markdown
  let rsl := env.check_rsl rr.1.2
  let eeat := env.check_eeat html (env.netloc url)
  let scored := compute_scores rr.1.1 lr.1 schema_org content1
  { url := url
    overall_score := scored.2.2.2.2
    robots := scored.1
    llms_txt := scored.2.1
    schema_org := scored.2.2.1
    content := scored.2.2.2.1
    rsl := rsl
    content_usage := cur.1
    eeat := eeat
    agent_readiness := ar.1
    errors := rr.2 ++ lr.2 ++ cur.2 ++ cr.2 ++ crawlErrorMsgs cr.1 ++ ar.2 }

-- ── Orchestrator: audit_site deadline, from src/context_cli/core/auditor.py ──

def SITE_AUDIT_TIMEOUT : Nat := 90

/-- The `except asyncio.TimeoutError` arm of `audit_site`: the degraded
report returned when the inner site audit misses the fixed deadline.
`errors` is whatever the inner audit appended before expiry. -/
def site_audit_timeout_report (url domain : String) (errors : List String) : SiteAuditReport :=
  { url := url
    domain := domain
    overall_score := 0
    robots := { found := false, detail := "Timed out" }
    llms_txt := { found := false, detail := "Timed out" }
    schema_org := { detail := "Timed out" }
    content := { detail := "Timed out" }
    discovery := { method := "timeout", detail := "Timed out" }
    errors := errors ++
      ["Audit timed out after " ++ toString SITE_AUDIT_TIMEOUT ++ "s, returning partial results"] }

/-- `audit_site`'s `asyncio.wait_for` wrapper: `inner = some rep` models the
inner audit finishing with `rep` inside the deadline; `none` models
`asyncio.TimeoutError`. -/
def audit_site (url domain : String) (inner : Option SiteAuditReport)
    (errs : List String) : SiteAuditReport :=
  match inner with
  | some rep => rep
  | none => site_audit_timeout_report url domain errs

-- ── Site aggregator, from src/context_cli/core/auditor.py ────────────────────

/-- `[p for p in pages if not p.errors or p.content.word_count > 0]`. -/
def successfulPages (pages : List PageAudit) : List PageAudit :=
  pages.filter (fun p => p.errors.isEmpty || decide (0 < p.content.word_count))

/-- `urlparse(url).path.strip("/")` restricted to the strip step: drop
leading and trailing slashes. -/
def stripSlashes (s : String) : String :=
  (s.dropWhile (fun ch => ch = '/')).dropRightWhile (fun ch => ch = '/')

/-- `len(path.split("/")) if path else 0` after stripping slashes. -/
def pathDepth (path : String) : Nat :=
  let p := stripSlashes path
  if p = "" then 0 else (p.splitOn "/").length

/-- `_page_weight`: 3 for depth 0-1, 2 for depth 2, 1 for depth 3+.
`pathOf` stands for `urlparse(...).path` (an external collaborator). -/
def page_weight (pathOf : String → String) (url : String) : Nat :=
  let depth := pathDepth (pathOf url)
  if depth ≤ 1 then 3 else if depth = 2 then 2 else 1

/-- `aggregate_page_scores`: weighted-average the per-page schema and
content scores over the successfully audited pages (weights from
`_page_weight`), simple-average the word/char counts, OR the structural
flags; with no successful page, degrade to the two site-wide pillars. -/
def aggregate_page_scores (pathOf : String → String) (pages : List PageAudit)
    (robots : RobotsReport) (llms_txt : LlmsTxtReport) :
    SchemaReport × ContentReport × ℚ :=
  let successful := successfulPages pages
  if successful.isEmpty then
    ({ detail := "No pages audited successfully" },
     { detail := "No pages audited successfully" },
     robots.score + llms_txt.score)
  else
    let weights := successful.map (fun p => page_weight pathOf p.url)
    let total_weight := weights.sum
    let all_schemas := (successful.map (fun p => p.schema_org.schemas)).flatten
    let total_blocks := (successful.map (fun p => p.schema_org.blocks_found)).sum
    let schema_score_sum :=
      ((successful.zip weights).map (fun pw => pw.1.schema_org.score * (pw.2 : ℚ))).sum
    let avg_schema_score := round1 (schema_score_sum / (total_weight : ℚ))
    let agg_schema : SchemaReport :=
      { blocks_found := total_blocks
        schemas := all_schemas
        score := avg_schema_score
        detail := toString total_blocks ++ " JSON-LD block(s) across "
          ++ toString successful.length ++ " pages (weighted avg score "
          ++ toString avg_schema_score ++ ")" }
    let content_score_sum :=
      ((successful.zip weights).map (fun pw => pw.1.content.score * (pw.2 : ℚ))).sum
    let word_sum := (successful.map (fun p => p.content.word_count)).sum
    let char_sum := (successful.map (fun p => p.content.char_count)).sum
    let n := successful.length
    let avg_content_score := round1 (content_score_sum / (total_weight : ℚ))
    let avg_words := word_sum / n
    let agg_content : ContentReport :=
      { word_count := avg_words
        char_count := char_sum / n
        has_headings := successful.any (fun p => p.content.has_headings)
        has_lists := successful.any (fun p => p.content.has_lists)
        has_code_blocks := successful.any (fun p => p.content.has_code_blocks)
        score := avg_content_score
        detail := "avg " ++ toString avg_words ++ " words across " ++ toString n
          ++ " pages (weighted avg score " ++ toString avg_content_score ++ ")" }
    (agg_schema, agg_content,
     robots.score + llms_txt.score + avg_schema_score + avg_content_score)

-- ── Probe taxonomy for the failure-isolation contract ────────────────────────

/-- The nine concurrently dispatched probes of a single-page audit. -/
inductive Probe where
  | robots
  | llms_txt
  | content_usage
  | crawl
  | agents_md
  | markdown_accept
  | mcp_endpoint
  | x402
  | nlweb
deriving DecidableEq, Repr

/-- Replace one probe's outcome with a raised exception. -/
def failProbe (p : Probe) (m : String) (inp : AuditInputs) : AuditInputs :=
  match p with
  | .robots => { inp with robots := .exn m }
  | .llms_txt => { inp with llms_txt := .exn m }
  | .content_usage => { inp with content_usage := .exn m }
  | .crawl => { inp with crawl := .exn m }
  | .agents_md => { inp with agents_md := .exn m }
  | .markdown_accept => { inp with markdown_accept := .exn m }
  | .mcp_endpoint => { inp with mcp_endpoint := .exn m }
  | .x402 => { inp with x402 := .exn m }
  | .nlweb => { inp with nlweb := .exn m }

/-- The error entry `audit_url` records when probe `p` raises with message
`m`, exactly as formatted in the source. -/
def probeFailMsg (p : Probe) (m : String) : String :=
  match p with
  | .robots => "Robots check failed: " ++ m
  | .llms_txt => "llms.txt check failed: " ++ m
  | .content_usage => "Content-Usage check failed: " ++ m
  | .crawl => "Crawl failed: " ++ m
  | .agents_md => "AGENTS.md check failed: " ++ m
  | .markdown_accept => "Markdown accept check failed: " ++ m
  | .mcp_endpoint => "MCP endpoint check failed: " ++ m
  | .x402 => "x402 check failed: " ++ m
  | .nlweb => "NLWeb check failed: " ++ m

/-- The values probe `q` contributes to an audit report: its stored pillar
report, or, for the extraction probe, the page-derived check outputs. -/
def probeEq (q : Probe) (a b : AuditReport) : Prop :=
  match q with
  | .robots => a.robots = b.robots
  | .llms_txt => a.llms_txt = b.llms_txt
  | .content_usage => a.content_usage = b.content_usage
  | .crawl => a.schema_org = b.schema_org ∧ a.content = b.content
      ∧ a.agent_readiness.semantic_html = b.agent_readiness.semantic_html
  | .agents_md => a.agent_readiness.agents_md = b.agent_readiness.agents_md
  | .markdown_accept => a.agent_readiness.markdown_accept = b.agent_readiness.markdown_accept
  | .mcp_endpoint => a.agent_readiness.mcp_endpoint = b.agent_readiness.mcp_endpoint
  | .x402 => a.agent_readiness.x402 = b.agent_readiness.x402
  | .nlweb => a.agent_readiness.nlweb = b.agent_readiness.nlweb

/-- The scored structured-data report computed from an empty HTML string —
what a page audit degrades to when extraction fails. -/
def scoredEmptySchema (env : AuditEnv) : SchemaReport :=
  { env.check_schema_org "" with score := schemaScore (env.check_schema_org "") }

/-- The scored content report computed from empty html/markdown. -/
def scoredEmptyContent (env : AuditEnv) : ContentReport :=
  let c := withTokenMetrics (env.check_content "") "" ""
  { c with score := contentScore c }

/-- The documented degraded state the report shows for a failed probe: the
"Check failed" default report for robots / llms.txt, `None` for the
Content-Usage signal, empty-input page-derived checks for a failed
extraction, and the default sub-report for a failed agent-readiness
sub-check. -/
def probeFailedDefault (env : AuditEnv) (p : Probe) (rep : AuditReport) : Prop :=
  match p with
  | .robots => rep.robots = { found := false, detail := "Check failed" }
  | .llms_txt => rep.llms_txt = { found := false, detail := "Check failed" }
  | .content_usage => rep.content_usage = none
  | .crawl => rep.schema_org = scoredEmptySchema env
      ∧ rep.content = scoredEmptyContent env
      ∧ rep.agent_readiness.semantic_html = env.check_semantic_html ""
  | .agents_md => rep.agent_readiness.agents_md = {}
  | .markdown_accept => rep.agent_readiness.markdown_accept = {}
  | .mcp_endpoint => rep.agent_readiness.mcp_endpoint = {}
  | .x402 => rep.agent_readiness.x402 = {}
  | .nlweb => rep.agent_readiness.nlweb = {}

-- ── Rounding lemmas ─────────────────────────────────────────────────────────

theorem roundHalfEven_intCast (z : ℤ) : roundHalfEven (z : ℚ) = z := by
  unfold roundHalfEven
  simp

theorem le_roundHalfEven (q : ℚ) : ⌊q⌋ ≤ roundHalfEven q := by
  unfold roundHalfEven
  split_ifs <;> omega

theorem roundHalfEven_le (q : ℚ) : roundHalfEven q ≤ ⌊q⌋ + 1 := by
  unfold roundHalfEven
  split_ifs <;> omega

theorem roundHalfEven_mono {q r : ℚ} (h : q ≤ r) :
    roundHalfEven q ≤ roundHalfEven r := by
  rcases eq_or_lt_of_le (Int.floor_le_floor h) with hf | hf
  · rcases eq_or_lt_of_le h with rfl | hqr
    · exact le_refl _
    · unfold roundHalfEven
      rw [← hf]
      have h1 : q - ⌊q⌋ ≤ r - ⌊q⌋ := by linarith
      split_ifs <;> first | omega | linarith
  · calc roundHalfEven q ≤ ⌊q⌋ + 1 := roundHalfEven_le q
      _ ≤ ⌊r⌋ := by omega
      _ ≤ roundHalfEven r := le_roundHalfEven r

theorem round1_mono {q r : ℚ} (h : q ≤ r) : round1 q ≤ round1 r := by
  unfold round1
  have h := roundHalfEven_mono (q := q * 10) (r := r * 10) (by linarith)
  rw [div_le_div_iff_of_pos_right (by norm_num : (0:ℚ) < 10)]
  exact_mod_cast h

theorem round1_intCast (z : ℤ) : round1 (z : ℚ) = z := by
  unfold round1
  have : ((z : ℚ) * 10) = ((z * 10 : ℤ) : ℚ) := by push_cast; ring
  rw [this, roundHalfEven_intCast]
  push_cast
  ring

/-- A rational with at most one decimal digit is a fixed point of `round1`. -/
theorem round1_tenths (z : ℤ) : round1 ((z : ℚ) / 10) = (z : ℚ) / 10 := by
  unfold round1
  have : ((z : ℚ) / 10 * 10) = (z : ℚ) := by ring
  rw [this, roundHalfEven_intCast]

-- ── Concrete instances for witness evaluations ──────────────────────────────

/-- An all-success probe tuple. -/
def okInputs (rv : RobotsReport × Option String) (lv : LlmsTxtReport)
    (cuv : ContentUsageReport) (cv : CrawlResult) (av : AgentsMdReport)
    (mv : MarkdownAcceptReport) (mcv : McpEndpointReport) (xv : X402Report)
    (nv : NlwebReport) : AuditInputs :=
  { robots := .ok rv
    llms_txt := .ok lv
    content_usage := .ok cuv
    crawl := .ok cv
    agents_md := .ok av
    markdown_accept := .ok mv
    mcp_endpoint := .ok mcv
    x402 := .ok xv
    nlweb := .ok nv }

/-- A concrete collaborator environment (constant check functions). -/
def constEnv : AuditEnv :=
  { check_schema_org := fun _ => {}
    check_content := fun _ => {}
    check_semantic_html := fun _ => {}
    check_rsl := fun _ => {}
    check_eeat := fun _ _ => {}
    netloc := fun _ => "example.com" }

def wRobots : RobotsReport × Option String :=
  ({ found := true, bots := [{ bot := "GPTBot", allowed := true }] }, some "User-agent: *")

def wLlms : LlmsTxtReport := { found := true }

def wCu : ContentUsageReport := {}

def wCrawl : CrawlResult :=
  { url := "https://example.com"
    html := "<html><body>hello</body></html>"
    markdown := "hello"
    success := true }

def wAgentsMd : AgentsMdReport := { found := true, score := 5 }

def wMdAccept : MarkdownAcceptReport := { supported := true, score := 5 }

def wMcp : McpEndpointReport := { found := true, score := 4 }

def wX402 : X402Report := { found := true, score := 2 }

def wNlweb : NlwebReport := { found := true, score := 1 }

/-- Concrete all-success inputs. -/
def wInputs : AuditInputs :=
  okInputs wRobots wLlms wCu wCrawl wAgentsMd wMdAccept wMcp wX402 wNlweb

/-- The same inputs with all five async agent-readiness probes replaced by
default values. -/
def wInputsAltAr : AuditInputs :=
  okInputs wRobots wLlms wCu wCrawl {} {} {} {} {}

/-- A successful crawl whose cleaned markdown (44 characters) is longer
than its raw HTML (12 characters). -/
def wasteCrawl : CrawlResult :=
  { url := "https://example.com"
    html := "aaaaaaaaaaaa"
    markdown := "bbbbbbbbbbbbbbbbbbbbbbbbbbbbbbbbbbbbbbbbbbbb"
    success := true }

/-- A single successful page for aggregation witnesses: homepage depth,
integer pillar scores. -/
def wPage : PageAudit :=
  { url := "https://example.com/"
    schema_org := { blocks_found := 1, score := 13 }
    content := { word_count := 400, score := 15 } }

/-- The audit report produced from `wasteCrawl`. -/
def wasteReport : AuditReport :=
  audit_url constEnv "https://example.com"
    (okInputs wRobots wLlms wCu wasteCrawl wAgentsMd wMdAccept wMcp wX402 wNlweb)

-- ── Shared helper lemmas ─────────────────────────────────────────────────────

theorem round1_zero : round1 0 = 0 := by
  have := round1_intCast 0
  simpa using this

theorem round1_hundred : round1 100 = 100 := by
  have := round1_intCast 100
  simpa using this

theorem round1_twentyfive : round1 25 = 25 := by
  have := round1_intCast 25
  simpa using this

/-- A weight is always at least 1. -/
theorem page_weight_pos (pathOf : String → String) (u : String) :
    1 ≤ page_weight pathOf u := by
  unfold page_weight
  dsimp only
  split_ifs <;> norm_num

/-- Summing `g p * f p` over a list zipped with its own mapped weights. -/
theorem zip_map_mul_sum (l : List PageAudit) (f : PageAudit → ℕ) (g : PageAudit → ℚ) :
    ((l.zip (l.map f)).map (fun pw => g pw.1 * (pw.2 : ℚ))).sum
      = (l.map (fun p => g p * (f p : ℚ))).sum := by
  induction l with
  | nil => simp
  | cons a t ih => simp [ih]

-- ── C2: site-audit deadline ──────────────────────────────────────────────────

/-- C2: when the inner site audit misses the fixed overall deadline
(`SITE_AUDIT_TIMEOUT`), `audit_site` returns — without raising — a
`SiteAuditReport` whose `overall_score` is 0, whose robots, llms.txt,
structured-data and content pillar reports are marked "Timed out", and
whose errors list is non-empty and contains the timeout entry. -/
theorem audit_site_deadline_spec (url domain : String) (errs : List String) :
    (audit_site url domain none errs).overall_score = 0
    ∧ (audit_site url domain none errs).robots
        = { found := false, detail := "Timed out" }
    ∧ (audit_site url domain none errs).llms_txt
        = { found := false, detail := "Timed out" }
    ∧ (audit_site url domain none errs).schema_org = { detail := "Timed out" }
    ∧ (audit_site url domain none errs).content = { detail := "Timed out" }
    ∧ (audit_site url domain none errs).errors ≠ []
    ∧ "Audit timed out after 90s, returning partial results"
        ∈ (audit_site url domain none errs).errors := by
  refine ⟨rfl, rfl, rfl, rfl, rfl, ?_, ?_⟩
  · simp [audit_site, site_audit_timeout_report]
  · simp only [audit_site, site_audit_timeout_report]
    exact List.mem_append_right _ (by decide)

/-- Witness for C2 at a concrete call. -/
theorem audit_site_deadline_spec_witness :
    (audit_site "https://example.com" "example.com" none []).overall_score = 0
    ∧ "Audit timed out after 90s, returning partial results"
        ∈ (audit_site "https://example.com" "example.com" none []).errors :=
  ⟨(audit_site_deadline_spec "https://example.com" "example.com" []).1,
   (audit_site_deadline_spec "https://example.com" "example.com" []).2.2.2.2.2.2⟩

-- ── C6: robots pillar score ──────────────────────────────────────────────────

/-- C6: the robots score is 0 when robots.txt was not found or no bots
were evaluated; otherwise it is `round1(max_points * allowed / total)`,
equals `max_points` exactly when every evaluated bot is allowed, and is
monotone non-decreasing in the allowed-bot fraction. -/
theorem robots_score_spec (r r₂ : RobotsReport) :
    ((r.found = false ∨ r.bots = []) → robotsScore r = 0)
    ∧ (r.found = true → r.bots ≠ [] →
        robotsScore r
          = round1 (ROBOTS_MAX * (allowedCount r.bots : ℚ) / (r.bots.length : ℚ)))
    ∧ (r.found = true → r.bots ≠ [] → (∀ b ∈ r.bots, b.allowed = true) →
        robotsScore r = ROBOTS_MAX)
    ∧ (r.found = true → r.bots ≠ [] → r₂.found = true → r₂.bots ≠ [] →
        (allowedCount r.bots : ℚ) / (r.bots.length : ℚ)
          ≤ (allowedCount r₂.bots : ℚ) / (r₂.bots.length : ℚ) →
        robotsScore r ≤ robotsScore r₂) := by
  have key : ∀ s : RobotsReport, s.found = true → s.bots ≠ [] →
      robotsScore s
        = round1 (ROBOTS_MAX * (allowedCount s.bots : ℚ) / (s.bots.length : ℚ)) := by
    intro s hf hb
    unfold robotsScore
    rw [hf]
    simp [List.isEmpty_iff, hb]
  refine ⟨?_, key r, ?_, ?_⟩
  · rintro (hf | hb)
    · unfold robotsScore
      rw [hf]
      simp
    · unfold robotsScore
      rw [hb]
      simp
  · intro hf hb hall
    rw [key r hf hb]
    have hc : allowedCount r.bots = r.bots.length := by
      unfold allowedCount
      rw [List.filter_eq_self.mpr]
      intro b hbmem
      exact hall b hbmem
    have hlen0 : r.bots.length ≠ 0 := by
      simpa [List.length_eq_zero] using hb
    have hlen : (r.bots.length : ℚ) ≠ 0 := by exact_mod_cast hlen0
    rw [hc, mul_div_assoc, div_self hlen, mul_one]
    show round1 ROBOTS_MAX = ROBOTS_MAX
    unfold ROBOTS_MAX
    exact round1_twentyfive
  · intro hf hb hf₂ hb₂ hfrac
    rw [key r hf hb, key r₂ hf₂ hb₂]
    apply round1_mono
    rw [mul_div_assoc, mul_div_assoc]
    have : (0:ℚ) ≤ ROBOTS_MAX := by unfold ROBOTS_MAX; norm_num
    exact mul_le_mul_of_nonneg_left hfrac this

/-- Witness for C6: a found report with 1 of 2 bots allowed scores 12.5,
and an all-allowed report scores the full 25. -/
theorem robots_score_spec_witness :
    robotsScore
        { found := true,
          bots := [{ bot := "GPTBot", allowed := true },
                   { bot := "ClaudeBot", allowed := false }] }
      = round1 (ROBOTS_MAX * (1 : ℚ) / 2)
    ∧ robotsScore { found := true, bots := [{ bot := "GPTBot", allowed := true }] }
      = ROBOTS_MAX := by
  have h := robots_score_spec
    { found := true,
      bots := [{ bot := "GPTBot", allowed := true },
               { bot := "ClaudeBot", allowed := false }] }
    { found := true, bots := [{ bot := "GPTBot", allowed := true }] }
  refine ⟨?_, ?_⟩
  · have h1 := h.2.1 rfl (by decide)
    simpa [allowedCount, List.filter] using h1
  · have h₂ := robots_score_spec
      { found := true, bots := [{ bot := "GPTBot", allowed := true }] }
      { found := true, bots := [{ bot := "GPTBot", allowed := true }] }
    exact h₂.2.2.1 rfl (by decide) (by decide)

-- ── C7: structured-data pillar score ─────────────────────────────────────────

/-- C7: with at least one block, the structured-data score is
`min(max, base + high_bonus * #unique-high-value-types +
std_bonus * #unique-standard-types)`; type names are deduplicated before
counting, so appending a second block of an already-present type leaves
the score unchanged; with zero blocks the score is 0. -/
theorem schema_score_spec (s : SchemaReport) (dup : SchemaOrgResult) :
    (s.blocks_found = 0 → schemaScore s = 0)
    ∧ (0 < s.blocks_found →
        schemaScore s
          = min SCHEMA_MAX
              (SCHEMA_BASE_SCORE
                + SCHEMA_HIGH_VALUE_BONUS
                    * (((uniqueTypes s).filter (fun t => t ∈ HIGH_VALUE_TYPES)).card : ℚ)
                + SCHEMA_STANDARD_BONUS
                    * ((((uniqueTypes s).card
                          - ((uniqueTypes s).filter (fun t => t ∈ HIGH_VALUE_TYPES)).card : ℕ)) : ℚ)))
    ∧ (0 < s.blocks_found →
        dup.schema_type ∈ s.schemas.map (fun b => b.schema_type) →
        schemaScore { s with blocks_found := s.blocks_found + 1, schemas := s.schemas ++ [dup] }
          = schemaScore s) := by
  refine ⟨?_, ?_, ?_⟩
  · intro h
    unfold schemaScore
    rw [h]
    simp
  · intro h
    unfold schemaScore
    rw [if_pos h]
  · intro h hdup
    have hmem : dup.schema_type ∈ (s.schemas.map (fun b => b.schema_type)).toFinset :=
      List.mem_toFinset.mpr hdup
    have hu : uniqueTypes
        { s with blocks_found := s.blocks_found + 1, schemas := s.schemas ++ [dup] }
        = uniqueTypes s := by
      unfold uniqueTypes
      simp [List.toFinset_append, Finset.union_eq_left, hmem]
    unfold schemaScore
    rw [hu]
    have h1 : 0 < s.blocks_found + 1 := Nat.succ_pos _
    rw [if_pos h1, if_pos h]

/-- Witness for C7: one FAQPage block scores min(25, 8+5) = 13, and a
duplicate FAQPage block does not change the score. -/
theorem schema_score_spec_witness :
    schemaScore { blocks_found := 1, schemas := [{ schema_type := "FAQPage" }] } = 13
    ∧ schemaScore
        { blocks_found := 2,
          schemas := [{ schema_type := "FAQPage" }, { schema_type := "FAQPage" }] }
      = schemaScore { blocks_found := 1, schemas := [{ schema_type := "FAQPage" }] } := by
  have h := schema_score_spec
    { blocks_found := 1, schemas := [{ schema_type := "FAQPage" }] }
    { schema_type := "FAQPage" }
  refine ⟨?_, ?_⟩
  · have h2 := h.2.1 (by decide)
    rw [h2]
    have hs : uniqueTypes { blocks_found := 1, schemas := [{ schema_type := "FAQPage" }] }
        = {"FAQPage"} := by
      simp [uniqueTypes]
    rw [hs]
    rw [Finset.filter_singleton]
    norm_num [HIGH_VALUE_TYPES, SCHEMA_MAX, SCHEMA_BASE_SCORE,
      SCHEMA_HIGH_VALUE_BONUS, SCHEMA_STANDARD_BONUS, min_def]
  · have h3 := h.2.2 (by decide) (by decide)
    exact h3

-- ── C9: aggregation exclusion rule ───────────────────────────────────────────

/-- C9: a page is excluded from aggregation exactly when it has at least
one error and zero extracted content; when every page is excluded, the
aggregate schema/content reports say no pages were audited and the site
overall score is the robots score plus the llms.txt score alone. -/
theorem aggregate_exclusion_spec (pathOf : String → String) (pages : List PageAudit)
    (robots : RobotsReport) (llms_txt : LlmsTxtReport) :
    (∀ p ∈ pages,
      (p ∉ successfulPages pages ↔ p.errors ≠ [] ∧ p.content.word_count = 0))
    ∧ ((∀ p ∈ pages, p.errors ≠ [] ∧ p.content.word_count = 0) →
        aggregate_page_scores pathOf pages robots llms_txt
          = ({ detail := "No pages audited successfully" },
             { detail := "No pages audited successfully" },
             robots.score + llms_txt.score)) := by
  constructor
  · intro p hp
    simp [successfulPages, List.mem_filter, hp, List.isEmpty_iff,
      Nat.pos_iff_ne_zero, not_or]
  · intro hall
    have hnil : successfulPages pages = [] := by
      unfold successfulPages
      rw [List.filter_eq_nil_iff]
      intro a ha
      have h := hall a ha
      simp [List.isEmpty_iff, h.1, h.2]
    unfold aggregate_page_scores
    rw [hnil]
    simp

/-- Witness for C9: a page with an error but nonzero word count is kept,
a page with an error and zero content is dropped, and a list with only
the latter degrades to the two site-wide pillars. -/
theorem aggregate_exclusion_spec_witness :
    ({ url := "https://example.com/a", errors := ["boom"] } : PageAudit)
        ∉ successfulPages [{ url := "https://example.com/a", errors := ["boom"] }]
    ∧ aggregate_page_scores (fun _ => "/a") [{ url := "https://example.com/a", errors := ["boom"] }]
        { score := 25 } { score := 10 }
      = ({ detail := "No pages audited successfully" },
         { detail := "No pages audited successfully" }, 35) := by
  have h := aggregate_exclusion_spec (fun _ => "/a")
    [{ url := "https://example.com/a", errors := ["boom"] }]
    ({ score := 25 } : RobotsReport) ({ score := 10 } : LlmsTxtReport)
  constructor
  · exact (h.1 _ (by simp)).mpr (by simp)
  · have h2 := h.2 (by intro p hp; simp at hp; simp [hp])
    rw [h2]
    norm_num

-- ── C10: v2 overall score; agent readiness never contributes ─────────────────

/-- C10: the single-page report's `overall_score` equals the sum of the
four scored v2 pillars stored on the same report, and is unchanged by the
five agent-readiness probe outcomes, whatever they are. -/
theorem audit_url_overall_v2_spec (env : AuditEnv) (url : String) (inp : AuditInputs) :
    (audit_url env url inp).overall_score
      = (audit_url env url inp).robots.score + (audit_url env url inp).llms_txt.score
        + (audit_url env url inp).schema_org.score + (audit_url env url inp).content.score
    ∧ (∀ inp₂ : AuditInputs,
        inp₂.robots = inp.robots → inp₂.llms_txt = inp.llms_txt →
        inp₂.content_usage = inp.content_usage → inp₂.crawl = inp.crawl →
        (audit_url env url inp₂).overall_score = (audit_url env url inp).overall_score) := by
  constructor
  · rfl
  · intro inp₂ h1 h2 h3 h4
    obtain ⟨r₂, l₂, cu₂, cr₂, a₂, m₂, mc₂, x₂, n₂⟩ := inp₂
    obtain ⟨r₁, l₁, cu₁, cr₁, a₁, m₁, mc₁, x₁, n₁⟩ := inp
    dsimp only at h1 h2 h3 h4
    subst h1 h2 h3 h4
    rfl

/-- Witness for C10: concrete inputs, with the agent-readiness probes
swapped for defaults, leave the overall score unchanged. -/
theorem audit_url_overall_v2_spec_witness :
    (audit_url constEnv "https://example.com" wInputs).overall_score
      = (audit_url constEnv "https://example.com" wInputs).robots.score
        + (audit_url constEnv "https://example.com" wInputs).llms_txt.score
        + (audit_url constEnv "https://example.com" wInputs).schema_org.score
        + (audit_url constEnv "https://example.com" wInputs).content.score
    ∧ (audit_url constEnv "https://example.com" wInputsAltAr).overall_score
        = (audit_url constEnv "https://example.com" wInputs).overall_score :=
  ⟨(audit_url_overall_v2_spec constEnv "https://example.com" wInputs).1,
   (audit_url_overall_v2_spec constEnv "https://example.com" wInputs).2
     wInputsAltAr rfl rfl rfl rfl⟩

-- ── C1: probe failure isolation in audit_url ─────────────────────────────────

/-- C1: with all probes succeeding except one that raises, `audit_url`
still returns a report in which the failing probe's pillar shows its
documented default, exactly one error entry (describing that failure) is
recorded, and every other probe's report values are identical to the
all-success run on the same data. -/
theorem audit_url_probe_isolation (env : AuditEnv) (url : String)
    (rv : RobotsReport × Option String) (lv : LlmsTxtReport) (cuv : ContentUsageReport)
    (cv : CrawlResult) (av : AgentsMdReport) (mv : MarkdownAcceptReport)
    (mcv : McpEndpointReport) (xv : X402Report) (nv : NlwebReport)
    (p : Probe) (m : String) (hcv : cv.success = true) :
    (∀ q, q ≠ p →
      probeEq q
        (audit_url env url (failProbe p m (okInputs rv lv cuv cv av mv mcv xv nv)))
        (audit_url env url (okInputs rv lv cuv cv av mv mcv xv nv)))
    ∧ probeFailedDefault env p
        (audit_url env url (failProbe p m (okInputs rv lv cuv cv av mv mcv xv nv)))
    ∧ (audit_url env url (okInputs rv lv cuv cv av mv mcv xv nv)).errors = []
    ∧ (audit_url env url (failProbe p m (okInputs rv lv cuv cv av mv mcv xv nv))).errors
        = [probeFailMsg p m] := by
  cases p
  all_goals refine ⟨?_, ?_, ?_, ?_⟩
  all_goals try (intro q hq; cases q <;>
    first
      | exact absurd rfl hq
      | rfl
      | exact ⟨rfl, rfl, rfl⟩)
  all_goals try exact rfl
  all_goals try exact ⟨rfl, rfl, rfl⟩
  all_goals simp [audit_url, okInputs, failProbe, resolveRobots, resolveLlms,
    resolveContentUsage, resolveCrawl, crawlErrorMsgs, build_agent_readiness,
    resolveAgentsMd, resolveMarkdownAccept, resolveMcpEndpoint, resolveX402,
    resolveNlweb, probeFailMsg, hcv]

/-- Witness for C1: a concrete audit in which only the AGENTS.md probe
raises; the failing pillar defaults, one error entry appears, and the
other probes' reports match the all-success run. -/
theorem audit_url_probe_isolation_witness :
    wCrawl.success = true
    ∧ ((∀ q, q ≠ Probe.agents_md →
          probeEq q
            (audit_url constEnv "https://example.com"
              (failProbe .agents_md "boom" wInputs))
            (audit_url constEnv "https://example.com" wInputs))
      ∧ probeFailedDefault constEnv .agents_md
          (audit_url constEnv "https://example.com"
            (failProbe .agents_md "boom" wInputs))
      ∧ (audit_url constEnv "https://example.com" wInputs).errors = []
      ∧ (audit_url constEnv "https://example.com"
            (failProbe .agents_md "boom" wInputs)).errors
          = [probeFailMsg .agents_md "boom"]) :=
  ⟨rfl, audit_url_probe_isolation constEnv "https://example.com" wRobots wLlms wCu wCrawl
      wAgentsMd wMdAccept wMcp wX402 wNlweb .agents_md "boom" rfl⟩

-- ── C3: v3 scoring scheme over v2 raw scores ─────────────────────────────────

/-- C3: under the v3 scheme the overall score is the sum over the four v2
pillars of `round1(raw / v2_max * v3_max)` plus the agent-readiness score
added unscaled, while the v2 scheme is left untouched by the extra
arguments. -/
theorem compute_scores_v3_spec (r : RobotsReport) (l : LlmsTxtReport) (s : SchemaReport)
    (c : ContentReport) (ar : AgentReadinessReport) :
    (compute_scores_versioned r l s c "v3" (some ar)).2.2.2.2
      = round1 ((compute_scores r l s c).1.score / ROBOTS_MAX * V3_ROBOTS_MAX)
        + round1 ((compute_scores r l s c).2.1.score / LLMS_TXT_MAX * V3_LLMS_TXT_MAX)
        + round1 ((compute_scores r l s c).2.2.1.score / SCHEMA_MAX * V3_SCHEMA_MAX)
        + round1 ((compute_scores r l s c).2.2.2.1.score / CONTENT_MAX * V3_CONTENT_MAX)
        + ar.score
    ∧ compute_scores_versioned r l s c "v2" (some ar) = compute_scores r l s c := by
  constructor
  · rfl
  · rfl

/-- Witness for C3 at concrete (all-default) reports. -/
theorem compute_scores_v3_spec_witness :
    (compute_scores_versioned {} {} {} {} "v3" (some { score := 9 })).2.2.2.2
      = round1 ((compute_scores {} {} {} {}).1.score / ROBOTS_MAX * V3_ROBOTS_MAX)
        + round1 ((compute_scores {} {} {} {}).2.1.score / LLMS_TXT_MAX * V3_LLMS_TXT_MAX)
        + round1 ((compute_scores {} {} {} {}).2.2.1.score / SCHEMA_MAX * V3_SCHEMA_MAX)
        + round1 ((compute_scores {} {} {} {}).2.2.2.1.score / CONTENT_MAX * V3_CONTENT_MAX)
        + ({ score := 9 } : AgentReadinessReport).score
    ∧ compute_scores_versioned {} {} {} {} "v2" (some { score := 9 })
        = compute_scores {} {} {} {} :=
  compute_scores_v3_spec {} {} {} {} { score := 9 }

-- ── C4: agent-readiness pillar score and detail ──────────────────────────────

/-- C4: the agent-readiness score is the sum of the six sub-signal scores
capped at the pillar maximum; the detail string is the fixed sentinel when
all six are zero, and otherwise lists exactly the non-zero sub-signals as
Name=value pairs. -/
theorem compute_agent_readiness_spec (ar : AgentReadinessReport) :
    (compute_agent_readiness ar).score
        = min V3_AGENT_READINESS_MAX ((arSubsignals ar).map (fun p => p.2)).sum
    ∧ ((∀ p ∈ arSubsignals ar, p.2 = 0) →
        (compute_agent_readiness ar).detail = "No agent readiness signals detected")
    ∧ ((∃ p ∈ arSubsignals ar, p.2 ≠ 0) →
        (compute_agent_readiness ar).detail
          = String.intercalate ", "
              (((arSubsignals ar).filter (fun p => p.2 != 0)).map
                (fun p => p.1 ++ "=" ++ toString p.2))) := by
  refine ⟨rfl, ?_, ?_⟩
  · intro hall
    have hnil : (arSubsignals ar).filter (fun p => p.2 != 0) = [] := by
      rw [List.filter_eq_nil_iff]
      intro a ha
      simpa using hall a ha
    simp [compute_agent_readiness, hnil]
  · intro hex
    have hne : (arSubsignals ar).filter (fun p => p.2 != 0) ≠ [] := by
      obtain ⟨p, hp, hpne⟩ := hex
      intro hnil
      have := List.filter_eq_nil_iff.mp hnil p hp
      simp [hpne] at this
    simp [compute_agent_readiness, List.isEmpty_iff, hne]

/-- Witness for C4: only the x402 sub-signal is non-zero, so the detail
lists exactly that pair. -/
theorem compute_agent_readiness_spec_witness :
    (compute_agent_readiness { x402 := { found := true, score := 2 } }).score
      = min V3_AGENT_READINESS_MAX
          ((arSubsignals { x402 := { found := true, score := 2 } }).map (fun p => p.2)).sum
    ∧ (compute_agent_readiness { x402 := { found := true, score := 2 } }).detail
      = String.intercalate ", "
          (((arSubsignals { x402 := { found := true, score := 2 } }).filter
              (fun p => p.2 != 0)).map (fun p => p.1 ++ "=" ++ toString p.2)) :=
  ⟨(compute_agent_readiness_spec _).1,
   (compute_agent_readiness_spec _).2.2
     ⟨("x402", 2), by simp [arSubsignals], by norm_num⟩⟩

-- ── C5: context-waste metric (corrected) ─────────────────────────────────────

/-- C5 counterexample: with 12 characters of raw HTML and 44 characters of
cleaned markdown, `rawTokens = 3 > 0` but the stored waste percentage is
`-266.7` — it differs from the claimed exact value `(3-11)/3*100` (the
source rounds to one decimal) and lies outside `[0, 100]` (the source
applies no clamp). -/
theorem context_waste_counterexample :
    wasteReport.content.estimated_raw_tokens = 3
    ∧ wasteReport.content.estimated_clean_tokens = 11
    ∧ wasteReport.content.context_waste_pct = -2667/10
    ∧ wasteReport.content.context_waste_pct ≠ ((3:ℚ) - 11) / 3 * 100
    ∧ ¬(0 ≤ wasteReport.content.context_waste_pct
        ∧ wasteReport.content.context_waste_pct ≤ 100) := by
  have hpct : wasteReport.content.context_waste_pct
      = round1 ((((3:ℕ):ℚ) - ((11:ℕ):ℚ)) / ((3:ℕ):ℚ) * 100) := rfl
  have harg : (((3:ℕ):ℚ) - ((11:ℕ):ℚ)) / ((3:ℕ):ℚ) * 100 = -800/3 := by
    push_cast
    norm_num
  have hfl : ⌊(-800:ℚ)/3 * 10⌋ = -2667 := by
    rw [Int.floor_eq_iff]
    norm_num
  have hval : wasteReport.content.context_waste_pct = -2667/10 := by
    rw [hpct, harg]
    unfold round1 roundHalfEven
    rw [hfl]
    norm_num
  refine ⟨rfl, rfl, hval, ?_, ?_⟩
  · rw [hval]
    norm_num
  · rw [hval]
    norm_num

/-- The token-metric fields of `withTokenMetrics`: estimates are the
character counts divided by 4, and the stored percentage is the rounded
formula, bounded in `[0, 100]` whenever clean does not exceed raw. -/
theorem withTokenMetrics_spec (c : ContentReport) (html markdown : String) :
    (withTokenMetrics c html markdown).estimated_raw_tokens
        = (withTokenMetrics c html markdown).raw_html_chars / 4
    ∧ (withTokenMetrics c html markdown).estimated_clean_tokens
        = (withTokenMetrics c html markdown).clean_markdown_chars / 4
    ∧ (0 < (withTokenMetrics c html markdown).estimated_raw_tokens →
        (withTokenMetrics c html markdown).context_waste_pct
          = round1 ((((withTokenMetrics c html markdown).estimated_raw_tokens : ℚ)
                - ((withTokenMetrics c html markdown).estimated_clean_tokens : ℚ))
              / ((withTokenMetrics c html markdown).estimated_raw_tokens : ℚ) * 100))
    ∧ ((withTokenMetrics c html markdown).estimated_raw_tokens = 0 →
        (withTokenMetrics c html markdown).context_waste_pct = 0)
    ∧ ((withTokenMetrics c html markdown).estimated_clean_tokens
          ≤ (withTokenMetrics c html markdown).estimated_raw_tokens →
        0 ≤ (withTokenMetrics c html markdown).context_waste_pct
        ∧ (withTokenMetrics c html markdown).context_waste_pct ≤ 100) := by
  unfold withTokenMetrics
  dsimp only
  refine ⟨rfl, rfl, ?_, ?_, ?_⟩
  · intro h
    rw [if_pos h]
  · intro h
    rw [if_neg (by omega)]
    exact round1_zero
  · intro h
    by_cases hr : 0 < html.length / 4
    · rw [if_pos hr]
      have hcast : ((markdown.length / 4 : ℕ) : ℚ) ≤ ((html.length / 4 : ℕ) : ℚ) := by
        exact_mod_cast h
      have hpos : (0:ℚ) < ((html.length / 4 : ℕ) : ℚ) := by exact_mod_cast hr
      have h0 : (0:ℚ) ≤ (((html.length / 4 : ℕ) : ℚ) - ((markdown.length / 4 : ℕ) : ℚ))
          / ((html.length / 4 : ℕ) : ℚ) * 100 := by
        apply mul_nonneg _ (by norm_num)
        apply div_nonneg (by linarith) (le_of_lt hpos)
      have h100 : (((html.length / 4 : ℕ) : ℚ) - ((markdown.length / 4 : ℕ) : ℚ))
          / ((html.length / 4 : ℕ) : ℚ) * 100 ≤ 100 := by
        have hmd : (0:ℚ) ≤ ((markdown.length / 4 : ℕ) : ℚ) := by positivity
        have hle : (((html.length / 4 : ℕ) : ℚ) - ((markdown.length / 4 : ℕ) : ℚ))
            / ((html.length / 4 : ℕ) : ℚ) ≤ 1 := by
          rw [div_le_one hpos]
          linarith
        linarith
      constructor
      · calc (0:ℚ) = round1 0 := round1_zero.symm
          _ ≤ round1 _ := round1_mono h0
      · calc round1 _ ≤ round1 100 := round1_mono h100
          _ = 100 := round1_hundred
    · rw [if_neg hr]
      rw [round1_zero]
      norm_num

/-- C5 amended: the stored `context_waste_pct` equals
`round1((rawTokens - cleanTokens)/rawTokens*100)` when `rawTokens > 0` and
0 otherwise, where the token estimates are the character counts divided by
4; the value lies in `[0, 100]` whenever `cleanTokens ≤ rawTokens` (the
source does not clamp, so nothing more can be guaranteed). -/
theorem context_waste_amended (env : AuditEnv) (url : String) (inp : AuditInputs) :
    (audit_url env url inp).content.estimated_raw_tokens
        = (audit_url env url inp).content.raw_html_chars / 4
    ∧ (audit_url env url inp).content.estimated_clean_tokens
        = (audit_url env url inp).content.clean_markdown_chars / 4
    ∧ (0 < (audit_url env url inp).content.estimated_raw_tokens →
        (audit_url env url inp).content.context_waste_pct
          = round1 ((((audit_url env url inp).content.estimated_raw_tokens : ℚ)
                - ((audit_url env url inp).content.estimated_clean_tokens : ℚ))
              / ((audit_url env url inp).content.estimated_raw_tokens : ℚ) * 100))
    ∧ ((audit_url env url inp).content.estimated_raw_tokens = 0 →
        (audit_url env url inp).content.context_waste_pct = 0)
    ∧ ((audit_url env url inp).content.estimated_clean_tokens
          ≤ (audit_url env url inp).content.estimated_raw_tokens →
        0 ≤ (audit_url env url inp).content.context_waste_pct
        ∧ (audit_url env url inp).content.context_waste_pct ≤ 100) :=
  withTokenMetrics_spec
    (env.check_content (crawlMarkdown (resolveCrawl inp.crawl).1))
    (crawlHtml (resolveCrawl inp.crawl).1)
    (crawlMarkdown (resolveCrawl inp.crawl).1)

/-- Witness for C5's amended theorem: the concrete all-success audit has
`cleanTokens ≤ rawTokens` and its waste percentage sits in `[0, 100]`. -/
theorem context_waste_amended_witness :
    (audit_url constEnv "https://example.com" wInputs).content.estimated_clean_tokens
      ≤ (audit_url constEnv "https://example.com" wInputs).content.estimated_raw_tokens
    ∧ (0 ≤ (audit_url constEnv "https://example.com" wInputs).content.context_waste_pct
      ∧ (audit_url constEnv "https://example.com" wInputs).content.context_waste_pct ≤ 100) :=
  ⟨by decide,
   (context_waste_amended constEnv "https://example.com" wInputs).2.2.2.2 (by decide)⟩

-- ── C8: weighted site aggregation ────────────────────────────────────────────

theorem successfulPages_isEmpty_false {pages : List PageAudit}
    (h : successfulPages pages ≠ []) : (successfulPages pages).isEmpty = false := by
  simp [List.isEmpty_iff, h]

/-- The aggregate structured-data score in the nonempty case. -/
theorem aggregate_schema_score_eq (pathOf : String → String) (pages : List PageAudit)
    (robots : RobotsReport) (llms_txt : LlmsTxtReport)
    (h : (successfulPages pages).isEmpty = false) :
    (aggregate_page_scores pathOf pages robots llms_txt).1.score
      = round1 (((successfulPages pages).map
            (fun p => p.schema_org.score * (page_weight pathOf p.url : ℚ))).sum
          / ((((successfulPages pages).map (fun p => page_weight pathOf p.url)).sum : ℕ) : ℚ)) := by
  unfold aggregate_page_scores
  simp only [h, Bool.false_eq_true, if_false]
  rw [zip_map_mul_sum (successfulPages pages) (fun p => page_weight pathOf p.url)
    (fun p => p.schema_org.score)]

/-- The aggregate content score in the nonempty case. -/
theorem aggregate_content_score_eq (pathOf : String → String) (pages : List PageAudit)
    (robots : RobotsReport) (llms_txt : LlmsTxtReport)
    (h : (successfulPages pages).isEmpty = false) :
    (aggregate_page_scores pathOf pages robots llms_txt).2.1.score
      = round1 (((successfulPages pages).map
            (fun p => p.content.score * (page_weight pathOf p.url : ℚ))).sum
          / ((((successfulPages pages).map (fun p => page_weight pathOf p.url)).sum : ℕ) : ℚ)) := by
  unfold aggregate_page_scores
  simp only [h, Bool.false_eq_true, if_false]
  rw [zip_map_mul_sum (successfulPages pages) (fun p => page_weight pathOf p.url)
    (fun p => p.content.score)]

/-- The overall site score in the nonempty case. -/
theorem aggregate_overall_eq (pathOf : String → String) (pages : List PageAudit)
    (robots : RobotsReport) (llms_txt : LlmsTxtReport)
    (h : (successfulPages pages).isEmpty = false) :
    (aggregate_page_scores pathOf pages robots llms_txt).2.2
      = robots.score + llms_txt.score
        + (aggregate_page_scores pathOf pages robots llms_txt).1.score
        + (aggregate_page_scores pathOf pages robots llms_txt).2.1.score := by
  unfold aggregate_page_scores
  simp only [h, Bool.false_eq_true, if_false]

theorem sum_map_const_nat {α : Type} (l : List α) (w0 : ℕ) :
    (l.map (fun _ => w0)).sum = l.length * w0 := by
  induction l with
  | nil => simp
  | cons a t ih => simp [ih]; ring

theorem sum_map_mul_const {α : Type} (l : List α) (g : α → ℚ) (c : ℚ) :
    (l.map (fun p => g p * c)).sum = (l.map g).sum * c := by
  induction l with
  | nil => simp
  | cons a t ih => simp [ih]; ring

/-- C8: the site-level structured-data and content scores are the
depth-weighted averages of the successful pages' scores rounded to one
decimal, with weight 3 at depth 0-1, weight 2 at depth 2 and weight 1 at
depth 3+; with equal weights the aggregate degenerates to the rounded
simple average, and with exactly one successful page each aggregate pillar
score equals that page's own (one-decimal) score and the overall score is
the two site-wide pillars plus that page's two scores. -/
theorem aggregate_weighted_spec (pathOf : String → String) (pages : List PageAudit)
    (robots : RobotsReport) (llms_txt : LlmsTxtReport)
    (h : successfulPages pages ≠ []) :
    (aggregate_page_scores pathOf pages robots llms_txt).1.score
      = round1 (((successfulPages pages).map
            (fun p => p.schema_org.score * (page_weight pathOf p.url : ℚ))).sum
          / ((((successfulPages pages).map (fun p => page_weight pathOf p.url)).sum : ℕ) : ℚ))
    ∧ (aggregate_page_scores pathOf pages robots llms_txt).2.1.score
      = round1 (((successfulPages pages).map
            (fun p => p.content.score * (page_weight pathOf p.url : ℚ))).sum
          / ((((successfulPages pages).map (fun p => page_weight pathOf p.url)).sum : ℕ) : ℚ))
    ∧ (∀ u, pathDepth (pathOf u) ≤ 1 → page_weight pathOf u = 3)
    ∧ (∀ u, pathDepth (pathOf u) = 2 → page_weight pathOf u = 2)
    ∧ (∀ u, 3 ≤ pathDepth (pathOf u) → page_weight pathOf u = 1)
    ∧ (∀ w0 : ℕ, (∀ p ∈ successfulPages pages, page_weight pathOf p.url = w0) →
        (aggregate_page_scores pathOf pages robots llms_txt).1.score
          = round1 (((successfulPages pages).map (fun p => p.schema_org.score)).sum
              / ((successfulPages pages).length : ℚ))
        ∧ (aggregate_page_scores pathOf pages robots llms_txt).2.1.score
          = round1 (((successfulPages pages).map (fun p => p.content.score)).sum
              / ((successfulPages pages).length : ℚ)))
    ∧ (∀ p : PageAudit, successfulPages pages = [p] →
        (∃ zs : ℤ, p.schema_org.score = (zs : ℚ) / 10) →
        (∃ zc : ℤ, p.content.score = (zc : ℚ) / 10) →
        (aggregate_page_scores pathOf pages robots llms_txt).1.score = p.schema_org.score
        ∧ (aggregate_page_scores pathOf pages robots llms_txt).2.1.score = p.content.score
        ∧ (aggregate_page_scores pathOf pages robots llms_txt).2.2
            = robots.score + llms_txt.score + p.schema_org.score + p.content.score) := by
  have hE := successfulPages_isEmpty_false h
  refine ⟨aggregate_schema_score_eq _ _ _ _ hE, aggregate_content_score_eq _ _ _ _ hE,
    ?_, ?_, ?_, ?_, ?_⟩
  · intro u hd
    unfold page_weight
    dsimp only
    rw [if_pos hd]
  · intro u hd
    unfold page_weight
    dsimp only
    rw [if_neg (by omega), if_pos hd]
  · intro u hd
    unfold page_weight
    dsimp only
    rw [if_neg (by omega), if_neg (by omega)]
  · intro w0 hw
    obtain ⟨p0, hp0⟩ := List.exists_mem_of_ne_nil _ h
    have hw0pos : 1 ≤ w0 := by
      rw [← hw p0 hp0]
      exact page_weight_pos pathOf p0.url
    have hcw : ((w0 : ℕ) : ℚ) ≠ 0 := Nat.cast_ne_zero.mpr (by omega)
    have hWsum : ((successfulPages pages).map (fun p => page_weight pathOf p.url)).sum
        = (successfulPages pages).length * w0 := by
      rw [List.map_congr_left (fun p hp => hw p hp), sum_map_const_nat]
    constructor
    · have e1 : ((successfulPages pages).map
            (fun p => p.schema_org.score * (page_weight pathOf p.url : ℚ))).sum
          = ((successfulPages pages).map (fun p => p.schema_org.score)).sum * (w0 : ℚ) := by
        rw [← sum_map_mul_const]
        exact congrArg List.sum (List.map_congr_left (fun p hp => by rw [hw p hp]))
      rw [aggregate_schema_score_eq _ _ _ _ hE, e1, hWsum]
      push_cast
      rw [mul_div_mul_right _ _ hcw]
    · have e1 : ((successfulPages pages).map
            (fun p => p.content.score * (page_weight pathOf p.url : ℚ))).sum
          = ((successfulPages pages).map (fun p => p.content.score)).sum * (w0 : ℚ) := by
        rw [← sum_map_mul_const]
        exact congrArg List.sum (List.map_congr_left (fun p hp => by rw [hw p hp]))
      rw [aggregate_content_score_eq _ _ _ _ hE, e1, hWsum]
      push_cast
      rw [mul_div_mul_right _ _ hcw]
  · intro p hps hzs hzc
    obtain ⟨zs, hzs⟩ := hzs
    obtain ⟨zc, hzc⟩ := hzc
    have hwpos : ((page_weight pathOf p.url : ℕ) : ℚ) ≠ 0 :=
      Nat.cast_ne_zero.mpr (by have := page_weight_pos pathOf p.url; omega)
    have h1 : (aggregate_page_scores pathOf pages robots llms_txt).1.score
        = p.schema_org.score := by
      rw [aggregate_schema_score_eq _ _ _ _ hE, hps]
      simp only [List.map_cons, List.map_nil, List.sum_cons, List.sum_nil, add_zero]
      rw [mul_div_assoc, div_self hwpos, mul_one, hzs]
      exact round1_tenths zs
    have h2 : (aggregate_page_scores pathOf pages robots llms_txt).2.1.score
        = p.content.score := by
      rw [aggregate_content_score_eq _ _ _ _ hE, hps]
      simp only [List.map_cons, List.map_nil, List.sum_cons, List.sum_nil, add_zero]
      rw [mul_div_assoc, div_self hwpos, mul_one, hzc]
      exact round1_tenths zc
    exact ⟨h1, h2, by rw [aggregate_overall_eq _ _ _ _ hE, h1, h2]⟩

/-- Witness for C8: one successful homepage-depth page; each aggregate
pillar score equals that page's own score and the overall score stacks
the site-wide pillars on top. -/
theorem aggregate_weighted_spec_witness :
    successfulPages [wPage] ≠ []
    ∧ ((aggregate_page_scores (fun _ => "/") [wPage]
          { score := 25 } { score := 10 }).1.score = wPage.schema_org.score
      ∧ (aggregate_page_scores (fun _ => "/") [wPage]
          { score := 25 } { score := 10 }).2.1.score = wPage.content.score
      ∧ (aggregate_page_scores (fun _ => "/") [wPage]
          { score := 25 } { score := 10 }).2.2
          = ({ score := 25 } : RobotsReport).score + ({ score := 10 } : LlmsTxtReport).score
            + wPage.schema_org.score + wPage.content.score) :=
  ⟨by decide,
   (aggregate_weighted_spec (fun _ => "/") [wPage] { score := 25 } { score := 10 }
       (by decide)).2.2.2.2.2.2 wPage (by decide)
     ⟨130, by norm_num [wPage]⟩ ⟨150, by norm_num [wPage]⟩⟩
